import Mathlib

set_option maxRecDepth 100000

/-!
Verification of the text-analysis backend (two Python sources:
`simple_text_analysis.py` and `text_analysis.py`) against its
natural-language specification.

The Python code is shallowly embedded: strings are `String` (lists of
characters), the regex whole-word substitutions (`\b…\b`, optionally with
`re.IGNORECASE`) are modelled by an explicit scanner, Python `dict`s become
association lists in declaration order, floats become `Rat`, and the two
external collaborators (the LanguageTool HTTP API and the local
LanguageTool/spaCy libraries) are modelled as explicit parameters carrying
the data the code reads off their responses.  All patterns in both tables
start and end with word characters (ASCII letters), so a `\b` boundary at
the edges of a pattern amounts to: the neighbouring character, when present,
is not a word character.
-/

/-! ### Python string primitives (ASCII fragment, as used by the sources) -/

/-- Whitespace recognised by Python `str.strip()` / `str.split()` (ASCII). -/
def pyIsSpace (c : Char) : Bool :=
  c = ' ' || c = '\t' || c = '\n' || c = '\r' || c = '\x0b' || c = '\x0c'

def pyStripL (l : List Char) : List Char :=
  ((l.dropWhile pyIsSpace).reverse.dropWhile pyIsSpace).reverse

/-- Python `str.strip()`. -/
def pyStrip (s : String) : String := ⟨pyStripL s.data⟩

def countWordsAux : List Char → Bool → Nat
  | [], _ => 0
  | c :: cs, inWord =>
    if pyIsSpace c then countWordsAux cs false
    else (if inWord then 0 else 1) + countWordsAux cs true

/-- Python `len(s.split())`: number of maximal runs of non-whitespace. -/
def pyCountWords (s : String) : Nat := countWordsAux s.data false

/-- Python `str.lower()` (ASCII). -/
def pyLowerL (l : List Char) : List Char := l.map Char.toLower

def pyLowerS (s : String) : String := ⟨pyLowerL s.data⟩

/-- Python `str.upper()` (ASCII). -/
def pyUpperL (l : List Char) : List Char := l.map Char.toUpper

def pyUpperS (s : String) : String := ⟨pyUpperL s.data⟩

/-- A cased character in the ASCII fragment: a letter. -/
def isCased (c : Char) : Bool := c.isUpper || c.isLower

/-- Python `str.isupper()`: at least one cased character and no lowercase one. -/
def pyIsUpperL (l : List Char) : Bool :=
  l.any (fun c => c.isUpper) && l.all (fun c => !c.isLower)

def pyIsUpperS (s : String) : Bool := pyIsUpperL s.data

/-- Python `str.istitle()` state machine: an uppercase letter may only follow
an uncased character, a lowercase letter only a cased one, and at least one
cased character must occur.  The two booleans are "previous character was
cased" and "some cased character seen". -/
def istitleAux : List Char → Bool → Bool → Bool
  | [], _, seen => seen
  | c :: cs, prevCased, seen =>
    if c.isUpper then (if prevCased then false else istitleAux cs true true)
    else if c.isLower then (if prevCased then istitleAux cs true true else false)
    else istitleAux cs false seen

def pyIsTitleL (l : List Char) : Bool := istitleAux l false false

def pyIsTitleS (s : String) : Bool := pyIsTitleL s.data

/-- Python `str.title()`: a cased character following an uncased one is
uppercased, a cased character following a cased one is lowercased. -/
def titleAux : List Char → Bool → List Char
  | [], _ => []
  | c :: cs, prevCased =>
    if isCased c then
      (if prevCased then c.toLower else c.toUpper) :: titleAux cs true
    else c :: titleAux cs false

def pyTitleL (l : List Char) : List Char := titleAux l false

def pyTitleS (s : String) : String := ⟨pyTitleL s.data⟩

/-! ### Whole-word matching and substitution (the `\b…\b` regexes) -/

/-- Regex word character `\w` (ASCII): letter, digit or underscore. -/
def isWordChar (c : Char) : Bool := c.isAlphanum || c = '_'

/-- Character comparison, optionally case-insensitive (`re.IGNORECASE`). -/
def charEq (ci : Bool) (a b : Char) : Bool :=
  if ci then a.toLower == b.toLower else a == b

def prefMatch (ci : Bool) : List Char → List Char → Bool
  | [], _ => true
  | _ :: _, [] => false
  | p :: ps, t :: ts => charEq ci p t && prefMatch ci ps ts

/-- Word boundary to the left of a candidate match (patterns begin with a
word character, so the previous character, when present, must not be one). -/
def okBefore : Option Char → Bool
  | none => true
  | some c => !(isWordChar c)

/-- Word boundary to the right of a candidate match. -/
def okAfter : List Char → Bool
  | [] => true
  | c :: _ => !(isWordChar c)

/-- Does the whole-word pattern match at the head of `text`, given the
character just before `text` in the full string? -/
def wordMatchAt (ci : Bool) (pat text : List Char) (prev : Option Char) : Bool :=
  !(pat.isEmpty) && prefMatch ci pat text && okBefore prev
    && okAfter (text.drop pat.length)

/-- `_match_case` of `simple_text_analysis.py`: re-case the replacement to
mirror the matched span (all-caps, else title, else lowercase). -/
def matchCaseL (replacement original : List Char) : List Char :=
  if pyIsUpperL original then pyUpperL replacement
  else if pyIsTitleL original then pyTitleL replacement
  else pyLowerL replacement

def match_case (replacement original : String) : String :=
  ⟨matchCaseL replacement.data original.data⟩

/-- `re.sub` of a whole-word pattern, scanning left to right without
rescanning replacements; `ci` is `re.IGNORECASE`, `caseMatch` selects the
case-mirroring lambda of `_replace_word` (otherwise the replacement is
inserted verbatim).  The fuel starts at the text length and dominates it
throughout. -/
def subFuel (ci caseMatch : Bool) (pat rep : List Char) :
    Nat → Option Char → List Char → List Char
  | _, _, [] => []
  | 0, _, text => text
  | fuel + 1, prev, c :: cs =>
    if wordMatchAt ci pat (c :: cs) prev then
      (if caseMatch then matchCaseL rep ((c :: cs).take pat.length) else rep)
        ++ subFuel ci caseMatch pat rep fuel ((c :: cs).take pat.length).getLast?
            ((c :: cs).drop pat.length)
    else c :: subFuel ci caseMatch pat rep fuel (some c) cs

def pySub (ci caseMatch : Bool) (pat rep text : String) : String :=
  ⟨subFuel ci caseMatch pat.data rep.data text.data.length none text.data⟩

/-- First whole-word match of the pattern, returning the matched span
(`re.search(...).group()`). -/
def findWordAux (ci : Bool) (pat : List Char) : Option Char → List Char → Option (List Char)
  | _, [] => none
  | prev, c :: cs =>
    if wordMatchAt ci pat (c :: cs) prev then some ((c :: cs).take pat.length)
    else findWordAux ci pat (some c) cs

def pyFindWord (ci : Bool) (pat text : String) : Option String :=
  (findWordAux ci pat.data none text.data).map (fun l => ⟨l⟩)

/-- `_contains_word` of `simple_text_analysis.py` (also the `pattern.search`
guards of `text_analysis.py`). -/
def contains_word (text word : String) : Bool := (pyFindWord true word text).isSome

/-- `_replace_word` of `simple_text_analysis.py`: case-insensitive whole-word
substitution with case mirroring. -/
def replace_word (text wrong right : String) : String := pySub true true wrong right text

/-- `_extract_word` of `simple_text_analysis.py`. -/
def extract_word (text word : String) : String := (pyFindWord true word text).getD word

/-! ### Plain (non-regex) substring operations (`in`, `str.replace`) -/

def prefAt : List Char → List Char → Bool
  | [], _ => true
  | _ :: _, [] => false
  | p :: ps, t :: ts => (p == t) && prefAt ps ts

/-- Python `needle in hay`. -/
def containsSub (needle : List Char) : List Char → Bool
  | [] => needle.isEmpty
  | c :: cs => prefAt needle (c :: cs) || containsSub needle cs

def containsSubS (needle hay : String) : Bool := containsSub needle.data hay.data

/-- Python `hay.replace(old, new, 1)` (an empty `old` inserts at the front). -/
def replaceFirstL (old new : List Char) : List Char → List Char
  | [] => if old.isEmpty then new else []
  | c :: cs =>
    if prefAt old (c :: cs) then new ++ (c :: cs).drop old.length
    else c :: replaceFirstL old new cs

def pyReplaceFirst (old new text : String) : String := ⟨replaceFirstL old.data new.data text.data⟩

def emptyIns (new : List Char) : List Char → List Char
  | [] => new
  | c :: cs => new ++ c :: emptyIns new cs

def replaceAllFuel (old new : List Char) : Nat → List Char → List Char
  | _, [] => []
  | 0, text => text
  | fuel + 1, c :: cs =>
    if prefAt old (c :: cs) then new ++ replaceAllFuel old new fuel ((c :: cs).drop old.length)
    else c :: replaceAllFuel old new fuel cs

/-- Python `hay.replace(old, new)` (an empty `old` inserts at every gap). -/
def pyReplaceAll (old new text : String) : String :=
  if old.isEmpty then ⟨emptyIns new.data text.data⟩
  else ⟨replaceAllFuel old.data new.data text.data.length text.data⟩

/-! ### Confidence scoring -/

/-- Rounding to the nearest integer, ties to even (Python `round` on the
exactly representable values arising here). -/
def roundHalfEven (x : Rat) : Int :=
  if x - ⌊x⌋ < 1/2 then ⌊x⌋
  else if 1/2 < x - ⌊x⌋ then ⌊x⌋ + 1
  else if ⌊x⌋ % 2 = 0 then ⌊x⌋ else ⌊x⌋ + 1

/-- Python `round(x, 2)`. -/
def pyRound2 (x : Rat) : Rat := ((roundHalfEven (x * 100) : Int) : Rat) / 100

/-- The confidence computation shared by both sources:
`round(max(0.0, 1.0 - wrong_word_count / max(1, total_words)), 2)`. -/
def pyConfidence (wrong total : Nat) : Rat :=
  pyRound2 (max 0 (1 - (wrong : Rat) / ((max 1 total : Nat) : Rat)))

/-! ### Shared small stages -/

def capitalizeFirstL : List Char → List Char
  | [] => []
  | c :: cs => c.toUpper :: cs

/-- `text[0].upper() + text[1:]` guarded by non-emptiness
(`_fix_capitalization` in `simple_text_analysis.py`, inline in
`text_analysis.py`). -/
def capitalizeFirst (s : String) : String := ⟨capitalizeFirstL s.data⟩

def fixSentenceEndL (l : List Char) : List Char :=
  match l.getLast? with
  | none => l
  | some c => if c = '.' || c = '!' || c = '?' then l else l ++ ['.']

/-- Append `.` when the text is non-empty and does not already end in
`.`, `!` or `?` (`_fix_sentence_end` in `simple_text_analysis.py`, inline in
`text_analysis.py`). -/
def fix_sentence_end (s : String) : String := ⟨fixSentenceEndL s.data⟩

/-! ### `text_analysis.py` -/

/-- A correction record of `text_analysis.py` (`original`, `corrected`,
`message`, `category`). -/
structure Correction where
  original : String
  corrected : String
  message : String
  category : String
deriving DecidableEq, Repr

/-- The `common_errors` dict of `analyze_grammar_and_words`, in declaration
order. -/
def taCommonErrors : List (String × String) :=
  [("i is", "I am"), ("i are", "I am"), ("he are", "he is"), ("she are", "she is"),
   ("it are", "it is"), ("we is", "we are"), ("they is", "they are"),
   ("store", "live"), ("buyed", "bought"), ("goed", "went"), ("eated", "ate"),
   ("runned", "ran"),
   ("in japan", "in Japan"), ("on japan", "in Japan"), ("at japan", "in Japan"),
   ("in home", "at home"), ("on home", "at home"),
   ("a apple", "an apple"), ("a hour", "an hour"), ("an book", "a book"),
   ("an university", "a university")]

/-- The `contractions` dict of `correct_common_contractions`, in declaration
order. -/
def taContractions : List (String × String) :=
  [("i am", "I'm"), ("i will", "I'll"), ("i have", "I've"), ("you are", "you're"),
   ("he is", "he's"), ("she is", "she's"), ("it is", "it's"), ("we are", "we're"),
   ("they are", "they're"), ("is not", "isn't"), ("are not", "aren't"),
   ("was not", "wasn't"), ("were not", "weren't"), ("do not", "don't"),
   ("does not", "doesn't"), ("did not", "didn't"), ("have not", "haven't"),
   ("has not", "hasn't"), ("had not", "hadn't"), ("will not", "won't"),
   ("would not", "wouldn't"), ("should not", "shouldn't"),
   ("could not", "couldn't"), ("cannot", "can't")]

/-- `correct_common_contractions` of `text_analysis.py`: lowercase the whole
text, apply each contraction substitution (case-sensitive `re.sub`, verbatim
replacement) in declaration order, then uppercase the first character. -/
def correct_common_contractions (text : String) : String :=
  capitalizeFirst (taContractions.foldl (fun acc p => pySub false false p.1 p.2 acc)
    (pyLowerS text))

/-- The `"I name" -> "My name"` special case of `analyze_grammar_and_words`
(step 3): case-insensitive whole-word substitution of all occurrences,
verbatim replacement, one `PRONOUN_USAGE` record. -/
def applyINameFix (text : String) : String × List Correction :=
  if (pyFindWord true "I name" text).isSome then
    (pySub true false "I name" "My name" text,
     [⟨"I", "My", "Use \"My\" instead of \"I\" before nouns", "PRONOUN_USAGE"⟩])
  else (text, [])

/-- The `common_errors` loop of `analyze_grammar_and_words`: for each entry in
declaration order, if a whole-word case-insensitive match exists, substitute
the replacement verbatim everywhere and record a `WORD_USAGE` correction
unless the matched span equals the replacement up to case. -/
def applyCommonErrors : List (String × String) → String → String × List Correction
  | [], text => (text, [])
  | (wrong, right) :: rest, text =>
    match pyFindWord true wrong text with
    | some originalWord =>
      let text1 := pySub true false wrong right text
      let recs :=
        if pyLowerS originalWord = pyLowerS right then ([] : List Correction)
        else [⟨originalWord, right,
               "\"" ++ right ++ "\" is more appropriate in this context",
               "WORD_USAGE"⟩]
      let res := applyCommonErrors rest text1
      (res.1, recs ++ res.2)
    | none => applyCommonErrors rest text

/-- Step 4 of `analyze_grammar_and_words`: each LanguageTool suggestion whose
source span is still a substring of the current text is applied by a verbatim
first-occurrence `str.replace` and its record is appended. -/
def applyExternalTA : List Correction → String → String × List Correction
  | [], text => (text, [])
  | gc :: gcs, text =>
    if containsSubS gc.original text then
      let res := applyExternalTA gcs (pyReplaceFirst gc.original gc.corrected text)
      (res.1, gc :: res.2)
    else applyExternalTA gcs text

/-- Step 6 of `analyze_grammar_and_words`: keep the first record for each
`(original.lower(), corrected.lower())` key. -/
def dedupeAux : List (String × String) → List Correction → List Correction
  | _, [] => []
  | seen, c :: cs =>
    let key := (pyLowerS c.original, pyLowerS c.corrected)
    if key ∈ seen then dedupeAux seen cs
    else c :: dedupeAux (key :: seen) cs

def dedupe (corrections : List Correction) : List Correction := dedupeAux [] corrections

/-- The analysis result of `text_analysis.py` (the `original_sentence` key,
absent from the blank-input branch and never claimed about, is omitted). -/
structure TAResult where
  corrected_sentence : String
  wrong_word_count : Nat
  corrections : List Correction
  confidence : Rat
deriving DecidableEq, Repr

/-- `analyze_grammar_and_words` of `text_analysis.py`.  `ext` is the
`grammar_corrections` list read off the LanguageTool library in step 1
(`[]` when `tool` is `None` or `tool.check` raises). -/
def analyze_grammar_and_words (ext : List Correction) (text : String) : TAResult :=
  if pyStrip text = "" then ⟨text, 0, [], 1⟩
  else
    let original := pyStrip text
    let s1 := applyINameFix original
    let s2 := applyCommonErrors taCommonErrors s1.1
    let s3 := applyExternalTA ext s2.1
    let s4 := correct_common_contractions s3.1
    let s5 := capitalizeFirst s4
    let s6 := fix_sentence_end s5
    let uniq := dedupe (s1.2 ++ s2.2 ++ s3.2)
    ⟨s6, uniq.length, uniq, pyConfidence uniq.length (pyCountWords original)⟩

/-! ### `simple_text_analysis.py` -/

/-- A correction record of `simple_text_analysis.py` (it carries an extra
`type` tag, `rule_based` or `api_based`). -/
structure SCorrection where
  original : String
  corrected : String
  message : String
  category : String
  ctype : String
deriving DecidableEq, Repr

/-- One LanguageTool API match as read by `_process_api_results`: character
offset and length of the span, the ordered replacement values, and the
optional `message` and `rule.category` fields. -/
structure ApiMatch where
  offset : Nat
  length : Nat
  replacements : List String
  message : Option String
  category : Option String
deriving DecidableEq, Repr

/-- A parsed LanguageTool response body; `apiMatches` models the `matches`
key (`none` when the JSON has no such key). -/
structure ApiResponse where
  apiMatches : Option (List ApiMatch)
deriving DecidableEq, Repr

/-- The `common_errors` dict of `EnhancedGrammarChecker`, in declaration
order. -/
def simpleCommonErrors : List (String × String) :=
  [("i is", "I am"), ("i are", "I am"), ("he are", "he is"), ("she are", "she is"),
   ("it are", "it is"), ("we is", "we are"), ("they is", "they are"),
   ("you is", "you are"),
   ("store", "live"), ("buyed", "bought"), ("goed", "went"), ("eated", "ate"),
   ("runned", "ran"), ("speaked", "spoke"), ("teached", "taught"),
   ("catched", "caught"), ("bringed", "brought"), ("thinked", "thought"),
   ("in home", "at home"), ("on home", "at home"), ("on japan", "in Japan"),
   ("at japan", "in Japan"), ("in school", "at school"), ("on school", "at school"),
   ("a apple", "an apple"), ("a hour", "an hour"), ("an book", "a book"),
   ("an university", "a university"), ("a european", "a European"),
   ("i name", "My name"), ("me name", "My name"), ("your name", "your name"),
   ("his name", "his name"), ("her name", "her name"), ("our name", "our name"),
   ("their name", "their name"),
   ("should of", "should have"), ("could of", "could have"),
   ("would of", "would have"), ("must of", "must have")]

/-- The `contractions` dict of `EnhancedGrammarChecker`, in declaration
order. -/
def simpleContractions : List (String × String) :=
  [("i am", "I'm"), ("you are", "you're"), ("he is", "he's"), ("she is", "she's"),
   ("it is", "it's"), ("we are", "we're"), ("they are", "they're"),
   ("is not", "isn't"), ("are not", "aren't"), ("do not", "don't"),
   ("does not", "doesn't"), ("did not", "didn't"), ("have not", "haven't"),
   ("has not", "hasn't"), ("had not", "hadn't"), ("will not", "won't"),
   ("cannot", "can't"), ("could not", "couldn't"), ("should not", "shouldn't"),
   ("would not", "wouldn't")]

/-- `_apply_rule_corrections`: for each `common_errors` entry in declaration
order, when a whole-word case-insensitive match exists, substitute with case
mirroring and record a `GRAMMAR` correction if the text actually changed. -/
def apply_rule_corrections : List (String × String) → String → String × List SCorrection
  | [], text => (text, [])
  | (wrong, right) :: rest, text =>
    if contains_word text wrong then
      let corrected := replace_word text wrong right
      let recs :=
        if corrected = text then ([] : List SCorrection)
        else
          let wrongWord := extract_word text wrong
          [⟨wrongWord, right, "\"" ++ wrongWord ++ "\" should be \"" ++ right ++ "\"",
            "GRAMMAR", "rule_based"⟩]
      let res := apply_rule_corrections rest corrected
      (res.1, recs ++ res.2)
    else apply_rule_corrections rest text

def defaultApiMessage : String := "Grammar error"

def defaultApiCategory : String := "GRAMMAR"

/-- `_process_api_results`: build an `api_based` record for every match with
a non-empty replacement list, skipping a match whose `(original, corrected)`
pair already occurs among the records built so far — only the API records
accumulated in this very pass are consulted. -/
def process_api_results (text : String) : List ApiMatch → List SCorrection → List SCorrection
  | [], acc => acc
  | m :: ms, acc =>
    match m.replacements with
    | [] => process_api_results text ms acc
    | best :: _ =>
      let wrongText : String := ⟨(text.data.drop m.offset).take m.length⟩
      if acc.any (fun c => c.original == wrongText && c.corrected == best) then
        process_api_results text ms acc
      else
        process_api_results text ms
          (acc ++ [⟨wrongText, best, m.message.getD defaultApiMessage,
                    m.category.getD defaultApiCategory, "api_based"⟩])

/-- `_apply_api_correction`: a plain global `str.replace`, no word boundaries
and no case mirroring. -/
def apply_api_correction (text : String) (c : SCorrection) : String :=
  pyReplaceAll c.original c.corrected text

/-- `_fix_contractions`: the contraction table applied through the same
case-insensitive, case-mirroring whole-word replacer. -/
def fix_contractions (text : String) : String :=
  simpleContractions.foldl
    (fun acc p => if contains_word acc p.1 then replace_word acc p.1 p.2 else acc) text

/-- `_generate_analysis_summary`. -/
def generate_analysis_summary (corrected : String) (totalErrors : Nat) : String :=
  if totalErrors = 0 then "Excellent! Your sentence is grammatically correct."
  else "This sentence has " ++ toString totalErrors
    ++ " error(s). The corrected version is: \"" ++ corrected ++ "\""

/-- `correct_text` of `simple_text_analysis.py`.  `api` is the value returned
by `check_with_languagetool` (`none` when the API call failed).  Returns
`(corrected text, corrections, total_errors, analysis_summary)`. -/
def correct_text (api : Option ApiResponse) (text : String) :
    String × List SCorrection × Nat × String :=
  if pyStrip text = "" then (text, [], 0, "No text provided")
  else
    let original := pyStrip text
    let c1 := capitalizeFirst original
    let r := apply_rule_corrections simpleCommonErrors c1
    let afterApi :=
      match api with
      | some resp =>
        match resp.apiMatches with
        | some ms =>
          let apiRecs := process_api_results r.1 ms []
          (apiRecs.foldl apply_api_correction r.1, r.2 ++ apiRecs)
        | none => (r.1, r.2)
      | none => (r.1, r.2)
    let c2 := fix_sentence_end afterApi.1
    let c3 := fix_contractions c2
    (c3, afterApi.2, afterApi.2.length,
     generate_analysis_summary c3 afterApi.2.length)

/-- The possible outcomes of the HTTP call inside `check_with_languagetool`:
a response with a status code and (when it parses) a JSON body, or a raised
exception (network failure, timeout, parse failure — `response.json()`
raising is folded into `body = none`). -/
inductive AdapterOutcome where
  | ok (status : Nat) (body : Option ApiResponse)
  | exn
deriving DecidableEq, Repr

/-- The `timeout=10` argument of the `requests.post` call. -/
def languagetoolTimeoutSeconds : Nat := 10

/-- `check_with_languagetool`: a 200 response with a parseable body yields the
body; any other status, a parse failure, or a raised exception yields `None`. -/
def check_with_languagetool : AdapterOutcome → Option ApiResponse
  | .ok status body => if status = 200 then (match body with
      | some j => some j
      | none => none)
    else none
  | .exn => none

/-- The flat result of the `/analyze-text` endpoint of
`simple_text_analysis.py`. -/
structure SimpleResult where
  corrected_sentence : String
  wrong_word_count : Nat
  corrections : List SCorrection
  confidence : Rat
  total_words : Nat
deriving DecidableEq, Repr

/-- The success path of `analyze_text_endpoint` in `simple_text_analysis.py`:
strip the text, reject it when empty (`none` models the 400 error), otherwise
run `correct_text` and attach `total_words = len(text.split())` and the
rounded confidence. -/
def analyze_text_endpoint (api : Option ApiResponse) (rawText : String) :
    Option SimpleResult :=
  if pyStrip rawText = "" then none
  else
    some ⟨(correct_text api (pyStrip rawText)).1,
          (correct_text api (pyStrip rawText)).2.2.1,
          (correct_text api (pyStrip rawText)).2.1,
          pyConfidence (correct_text api (pyStrip rawText)).2.2.1
            (pyCountWords (pyStrip rawText)),
          pyCountWords (pyStrip rawText)⟩

/-! ### Definitions modelled from the spec, for comparison with the code -/

/-- Modelled from the spec: the claimed pipeline order
`CAPITALIZE_FIRST → APPLY_GRAMMAR_PATTERNS → APPLY_EXTERNAL_SUGGESTIONS →
APPLY_CONTRACTIONS → FIX_TERMINAL_PUNCTUATION → DEDUP_AND_SCORE`, assembled
from the same stage functions the code uses, to be compared with
`analyze_grammar_and_words`. -/
def specOrderAnalyze (ext : List Correction) (text : String) : TAResult :=
  if pyStrip text = "" then ⟨text, 0, [], 1⟩
  else
    let s0 := capitalizeFirst (pyStrip text)
    let s1 := applyINameFix s0
    let s2 := applyCommonErrors taCommonErrors s1.1
    let s3 := applyExternalTA ext s2.1
    let s4 := correct_common_contractions s3.1
    let s5 := fix_sentence_end s4
    let uniq := dedupe (s1.2 ++ s2.2 ++ s3.2)
    ⟨s5, uniq.length, uniq, pyConfidence uniq.length (pyCountWords (pyStrip text))⟩

def dedupePairsAux : List (String × String) → List (String × String) → List (String × String)
  | _, [] => []
  | seen, k :: ks =>
    if k ∈ seen then dedupePairsAux seen ks
    else k :: dedupePairsAux (k :: seen) ks

/-- Modelled from the spec: first-seen-wins deduplication of
`(original.lowercase, corrected.lowercase)` keys, used to state what the
size of "the deduplicated correction list" would be for
`simple_text_analysis.py`, which itself never deduplicates. -/
def dedupePairs (l : List (String × String)) : List (String × String) :=
  dedupePairsAux [] l

/-- An adapter response proposing `"buyed" → "bought"` for the span at
offset 11, length 5 of `"I bought a buyeds"` (the text after the rule pass of
`correct_text "i buyed a buyeds"`): the scenario in which the rule pass and
the external adapter propose the same pair. -/
def buyedApiResponse : ApiResponse := ⟨some [⟨11, 5, ["bought"], none, none⟩]⟩

/-! ### Arithmetic facts about the confidence scorer -/

theorem roundHalfEven_nonneg (x : Rat) (hx : 0 ≤ x) : 0 ≤ roundHalfEven x := by
  have h0 : (0 : Int) ≤ ⌊x⌋ := Int.floor_nonneg.mpr hx
  unfold roundHalfEven
  split
  · exact h0
  split
  · omega
  split
  · exact h0
  · omega

theorem roundHalfEven_le (x : Rat) (c : Int) (hx : x ≤ (c : Rat)) :
    roundHalfEven x ≤ c := by
  have hf : ⌊x⌋ ≤ c := by
    have h := Int.floor_le_floor hx
    simpa using h
  unfold roundHalfEven
  split
  · exact hf
  rename_i h1
  have hlt : (⌊x⌋ : Rat) < x := by
    have h2 : (1 : Rat) / 2 ≤ x - ⌊x⌋ := le_of_not_lt h1
    linarith
  have hc : ⌊x⌋ < c := by
    exact_mod_cast lt_of_lt_of_le hlt hx
  split
  · omega
  split
  · exact hf
  · omega

theorem pyRound2_nonneg (x : Rat) (hx : 0 ≤ x) : 0 ≤ pyRound2 x := by
  unfold pyRound2
  have h := roundHalfEven_nonneg (x * 100) (by positivity)
  have h2 : (0 : Rat) ≤ ((roundHalfEven (x * 100) : Int) : Rat) := by exact_mod_cast h
  positivity

theorem pyRound2_le_one (x : Rat) (hx : x ≤ 1) : pyRound2 x ≤ 1 := by
  unfold pyRound2
  have h := roundHalfEven_le (x * 100) 100 (by push_cast; linarith)
  rw [div_le_one (by norm_num)]
  exact_mod_cast h

theorem pyConfidence_nonneg (w t : Nat) : 0 ≤ pyConfidence w t :=
  pyRound2_nonneg _ (le_max_left 0 _)

theorem pyConfidence_le_one (w t : Nat) : pyConfidence w t ≤ 1 := by
  apply pyRound2_le_one
  apply max_le (by norm_num)
  have hw : (0 : Rat) ≤ (w : Rat) := Nat.cast_nonneg w
  have ht : (0 : Rat) < ((max 1 t : Nat) : Rat) := by
    have h1 : (1 : Nat) ≤ max 1 t := le_max_left 1 t
    exact_mod_cast lt_of_lt_of_le Nat.zero_lt_one h1
  have hd : 0 ≤ (w : Rat) / ((max 1 t : Nat) : Rat) := div_nonneg hw ht.le
  linarith

theorem pyConfidence_zero (t : Nat) : pyConfidence 0 t = 1 := by
  unfold pyConfidence
  rw [Nat.cast_zero, zero_div, sub_zero,
    max_eq_right (by norm_num : (0 : Rat) ≤ 1)]
  unfold pyRound2 roundHalfEven
  norm_num

theorem pyConfidence_one_three : pyConfidence 1 3 = 67 / 100 := by
  have h1 : pyConfidence 1 3 = pyRound2 (max 0 (1 - 1 / 3)) := by
    unfold pyConfidence
    norm_num
  rw [h1, max_eq_right (by norm_num : (0 : Rat) ≤ 1 - 1 / 3)]
  unfold pyRound2 roundHalfEven
  have hf : ⌊((1 - 1 / 3 : Rat) * 100)⌋ = 66 := by
    rw [show ((1 - 1 / 3 : Rat) * 100) = 200 / 3 by norm_num]
    rw [Int.floor_eq_iff]
    constructor <;> norm_num
  rw [hf]
  norm_num

theorem pyConfidence_two_four : pyConfidence 2 4 = 1 / 2 := by
  have h1 : pyConfidence 2 4 = pyRound2 (max 0 (1 - 2 / 4)) := by
    unfold pyConfidence
    norm_num
  rw [h1, max_eq_right (by norm_num : (0 : Rat) ≤ 1 - 2 / 4)]
  unfold pyRound2 roundHalfEven
  have hf : ⌊((1 - 2 / 4 : Rat) * 100)⌋ = 50 := by
    rw [show ((1 - 2 / 4 : Rat) * 100) = 50 by norm_num]
    rw [Int.floor_eq_iff]
    constructor <;> norm_num
  rw [hf]
  norm_num

theorem pyConfidence_one_four : pyConfidence 1 4 = 3 / 4 := by
  have h1 : pyConfidence 1 4 = pyRound2 (max 0 (1 - 1 / 4)) := by
    unfold pyConfidence
    norm_num
  rw [h1, max_eq_right (by norm_num : (0 : Rat) ≤ 1 - 1 / 4)]
  unfold pyRound2 roundHalfEven
  have hf : ⌊((1 - 1 / 4 : Rat) * 100)⌋ = 75 := by
    rw [show ((1 - 1 / 4 : Rat) * 100) = 75 by norm_num]
    rw [Int.floor_eq_iff]
    constructor <;> norm_num
  rw [hf]
  norm_num

/-! ### Helper lemmas -/

theorem correct_text_wrong_eq_len (api : Option ApiResponse) (text : String) :
    (correct_text api text).2.2.1 = (correct_text api text).2.1.length := by
  unfold correct_text
  by_cases h : pyStrip text = ""
  · rw [if_pos h]
    rfl
  · rw [if_neg h]

/-! ### The claims -/

/-- C1: every substitution performed by the whole-word replacer of
`simple_text_analysis.py` re-cases the inserted replacement by the three-way
policy of `_match_case`, checked in this order: all-uppercase matched span
gives an uppercase replacement, else title-case gives title-case, else
(mixed or ambiguous casing included) lowercase; in particular the span
`"I IS"` in `"I IS HUNGRY"` yields `"I AM"` and the span `"I Is"` yields
`"I Am"`. -/
theorem c1_case_mirroring_policy :
    (∀ replacement original : String,
      match_case replacement original =
        if pyIsUpperS original then pyUpperS replacement
        else if pyIsTitleS original then pyTitleS replacement
        else pyLowerS replacement)
    ∧ match_case "I am" "I IS" = "I AM"
    ∧ match_case "I am" "I Is" = "I Am"
    ∧ replace_word "I IS HUNGRY" "i is" "I am" = "I AM HUNGRY"
    ∧ replace_word "I Is hungry" "i is" "I am" = "I Am hungry" := by
  refine ⟨?_, by decide, by decide, by decide, by decide⟩
  intro replacement original
  unfold match_case matchCaseL pyIsUpperS pyIsTitleS pyUpperS pyTitleS pyLowerS
  by_cases h1 : pyIsUpperL original.data
  · simp [h1]
  · by_cases h2 : pyIsTitleL original.data <;> simp [h1, h2]

/-- C10: `correct_common_contractions` of `text_analysis.py` lowercases the
whole input, applies the contraction substitutions in declaration order, and
then uppercases only the first character — so internal capitalization
(proper nouns, acronyms, a mid-sentence pronoun `I`) is lost. -/
theorem c10_contraction_pass_lowercases_everything :
    (∀ text : String,
      correct_common_contractions text =
        capitalizeFirst (taContractions.foldl
          (fun acc p => pySub false false p.1 p.2 acc) (pyLowerS text)))
    ∧ correct_common_contractions "He and I met John in NYC" =
        "He and i met john in nyc" := by
  exact ⟨fun text => rfl, by decide⟩

/-- C6: an empty or all-whitespace input short-circuits both pipelines:
`analyze_grammar_and_words` returns the input unchanged with zero
corrections and confidence 1, and `correct_text` returns the input unchanged
with zero corrections, whatever the external adapter would have said. -/
theorem c6_blank_input_short_circuits (ext : List Correction)
    (api : Option ApiResponse) (text : String) (h : pyStrip text = "") :
    analyze_grammar_and_words ext text = ⟨text, 0, [], 1⟩
    ∧ correct_text api text = (text, [], 0, "No text provided") := by
  constructor
  · unfold analyze_grammar_and_words
    rw [if_pos h]
  · unfold correct_text
    rw [if_pos h]

theorem c6_witness :
    analyze_grammar_and_words [] "   " = ⟨"   ", 0, [], 1⟩
    ∧ correct_text none "   " = ("   ", [], 0, "No text provided") :=
  c6_blank_input_short_circuits [] none "   " (by decide)

/-- C5 counterexample: on the input `"i are happy"` with the external
adapter unavailable, `analyze_grammar_and_words` does not return the claimed
corrected sentence `"I am happy."` (the contraction stage turns `I am` into
`I'm`), and none of its correction records carries the claimed category
`GRAMMAR` (the rule pass tags `WORD_USAGE`). -/
theorem c5_counterexample :
    (analyze_grammar_and_words [] "i are happy").corrected_sentence ≠ "I am happy."
    ∧ (analyze_grammar_and_words [] "i are happy").corrections.all
        (fun c => c.category != "GRAMMAR") = true := by
  exact ⟨by decide, by decide⟩

/-- C5 amended: on `"i are happy"` with the adapter unavailable,
`analyze_grammar_and_words` returns corrected sentence `"I'm happy."`, the
single correction record `{original "i are", corrected "I am", category
"WORD_USAGE"}`, `wrong_word_count = 1`, 3 words in the original input, and
confidence `0.67`. -/
theorem c5_amended_actual_result :
    (analyze_grammar_and_words [] "i are happy").corrected_sentence = "I'm happy."
    ∧ (analyze_grammar_and_words [] "i are happy").corrections =
        [⟨"i are", "I am", "\"I am\" is more appropriate in this context",
          "WORD_USAGE"⟩]
    ∧ (analyze_grammar_and_words [] "i are happy").wrong_word_count = 1
    ∧ pyCountWords (pyStrip "i are happy") = 3
    ∧ (analyze_grammar_and_words [] "i are happy").confidence = 67 / 100 := by
  refine ⟨by decide, by decide, by decide, by decide, ?_⟩
  have h : (analyze_grammar_and_words [] "i are happy").confidence =
      pyConfidence 1 3 := rfl
  rw [h, pyConfidence_one_three]

/-- C2: the duplicate-suppression claim at the failing input.  In
`text_analysis.py` (first conjunct is the intended behavior) the rule pass
and an external suggestion proposing the same pair `"buyed" → "bought"` are
merged by the single end-of-pipeline dedup into exactly one record.  In
`simple_text_analysis.py` (second conjunct, the bug) the same scenario keeps
both records: the duplicate check inside `_process_api_results` only
compares API records against the other API records of the same pass — its
`corrections` accumulator starts empty and never contains the rule-based
records, despite the comment "Avoid duplicates with rule-based corrections"
— and `correct_text` never deduplicates the combined list. -/
theorem c2_duplicate_pair_at_failing_input :
    (analyze_grammar_and_words
        [⟨"buyed", "bought", "Possible spelling mistake", "TYPOS"⟩]
        "i buyed a buyeds").corrections.countP
        (fun c => c.original == "buyed" && c.corrected == "bought") = 1
    ∧ (correct_text (some buyedApiResponse) "i buyed a buyeds").2.1.countP
        (fun c => c.original == "buyed" && c.corrected == "bought") = 2 := by
  exact ⟨by decide, by decide⟩

/-- C4 counterexample: in `simple_text_analysis.py`, `wrong_word_count` is
the size of the raw, never-deduplicated correction list, so in the scenario
where the rule pass and the adapter both propose `"buyed" → "bought"` on
`"i buyed a buyeds"` (4 words) the endpoint reports confidence
`round(1 - 2/4) = 0.5`, while the claimed formula over the deduplicated list
(1 key) yields `0.75`. -/
theorem c4_counterexample :
    (analyze_text_endpoint (some buyedApiResponse) "i buyed a buyeds").map
        SimpleResult.confidence = some (1 / 2)
    ∧ pyConfidence
        (dedupePairs (((correct_text (some buyedApiResponse) "i buyed a buyeds").2.1).map
          (fun c => (pyLowerS c.original, pyLowerS c.corrected)))).length
        (pyCountWords (pyStrip "i buyed a buyeds")) = 3 / 4
    ∧ (1 / 2 : Rat) ≠ 3 / 4 := by
  refine ⟨?_, ?_, by norm_num⟩
  · have h : (analyze_text_endpoint (some buyedApiResponse) "i buyed a buyeds").map
        SimpleResult.confidence = some (pyConfidence 2 4) := rfl
    rw [h, pyConfidence_two_four]
  · have h : pyConfidence
        (dedupePairs (((correct_text (some buyedApiResponse) "i buyed a buyeds").2.1).map
          (fun c => (pyLowerS c.original, pyLowerS c.corrected)))).length
        (pyCountWords (pyStrip "i buyed a buyeds")) = pyConfidence 1 4 := rfl
    rw [h, pyConfidence_one_four]

/-- C4 amended: the confidence formula
`round(max(0, 1 - wrong_word_count / max(1, total_words)), 2)` holds in both
sources, with `total_words` counted on the stripped pre-correction input; in
`text_analysis.py` `wrong_word_count` is the length of the deduplicated
correction list, while in `simple_text_analysis.py` it is the length of the
raw accumulated list.  In both, confidence lies in `[0, 1]` and equals `1`
whenever there are no corrections. -/
theorem c4_amended_confidence_formula (ext : List Correction)
    (api : Option ApiResponse) (text : String) :
    ((analyze_grammar_and_words ext text).confidence =
        pyConfidence (analyze_grammar_and_words ext text).corrections.length
          (pyCountWords (pyStrip text))
      ∧ (analyze_grammar_and_words ext text).wrong_word_count =
          (analyze_grammar_and_words ext text).corrections.length
      ∧ 0 ≤ (analyze_grammar_and_words ext text).confidence
      ∧ (analyze_grammar_and_words ext text).confidence ≤ 1
      ∧ ((analyze_grammar_and_words ext text).corrections = [] →
          (analyze_grammar_and_words ext text).confidence = 1))
    ∧ (∀ res : SimpleResult, analyze_text_endpoint api text = some res →
        res.confidence = pyConfidence res.wrong_word_count res.total_words
        ∧ res.wrong_word_count = res.corrections.length
        ∧ res.total_words = pyCountWords (pyStrip text)
        ∧ 0 ≤ res.confidence ∧ res.confidence ≤ 1
        ∧ (res.corrections = [] → res.confidence = 1)) := by
  have hconf : (analyze_grammar_and_words ext text).confidence =
      pyConfidence (analyze_grammar_and_words ext text).corrections.length
        (pyCountWords (pyStrip text)) := by
    unfold analyze_grammar_and_words
    by_cases h : pyStrip text = ""
    · simp only [if_pos h]
      rw [show (⟨text, 0, [], 1⟩ : TAResult).corrections.length = 0 from rfl,
        pyConfidence_zero]
    · simp only [if_neg h]
  have hwc : (analyze_grammar_and_words ext text).wrong_word_count =
      (analyze_grammar_and_words ext text).corrections.length := by
    unfold analyze_grammar_and_words
    by_cases h : pyStrip text = ""
    · simp only [if_pos h]
      rfl
    · simp only [if_neg h]
  constructor
  · refine ⟨hconf, hwc, ?_, ?_, ?_⟩
    · rw [hconf]
      exact pyConfidence_nonneg _ _
    · rw [hconf]
      exact pyConfidence_le_one _ _
    · intro h0
      rw [hconf, h0, show ([] : List Correction).length = 0 from rfl,
        pyConfidence_zero]
  · intro res hres
    unfold analyze_text_endpoint at hres
    by_cases h : pyStrip text = ""
    · rw [if_pos h] at hres
      exact absurd hres (by simp)
    · rw [if_neg h] at hres
      injection hres with h2
      subst h2
      refine ⟨rfl, ?_, rfl, pyConfidence_nonneg _ _, pyConfidence_le_one _ _, ?_⟩
      · exact correct_text_wrong_eq_len api (pyStrip text)
      · intro h0
        simp only [] at h0 ⊢
        rw [correct_text_wrong_eq_len api (pyStrip text), h0,
          show ([] : List SCorrection).length = 0 from rfl, pyConfidence_zero]

theorem c4_witness :
    (analyze_grammar_and_words [] "hello").confidence = 1
    ∧ (0 : Rat) ≤ pyConfidence 0 1 := by
  constructor
  · exact (c4_amended_confidence_formula [] none "hello").1.2.2.2.2 (by decide)
  · have h := (c4_amended_confidence_formula [] none "hello").2
      ⟨"Hello.", 0, [], pyConfidence 0 1, 1⟩ rfl
    exact h.2.2.2.1

/-- C9: the contraction-normalization pass contributes nothing to the
correction lists: in both pipelines the final corrections are exactly the
records accumulated before the contraction stage — the right-hand sides
below mention no contraction function — so that pass only rewrites text and
never emits a record. -/
theorem c9_contraction_pass_emits_no_records (ext : List Correction)
    (api : Option ApiResponse) (text : String) :
    (analyze_grammar_and_words ext text).corrections =
      (if pyStrip text = "" then [] else
        dedupe ((applyINameFix (pyStrip text)).2
          ++ (applyCommonErrors taCommonErrors (applyINameFix (pyStrip text)).1).2
          ++ (applyExternalTA ext (applyCommonErrors taCommonErrors
              (applyINameFix (pyStrip text)).1).1).2))
    ∧ (correct_text api text).2.1 =
      (if pyStrip text = "" then [] else
        (apply_rule_corrections simpleCommonErrors (capitalizeFirst (pyStrip text))).2 ++
          (match api with
           | some resp =>
             match resp.apiMatches with
             | some ms => process_api_results
                 (apply_rule_corrections simpleCommonErrors
                   (capitalizeFirst (pyStrip text))).1 ms []
             | none => []
           | none => [])) := by
  constructor
  · unfold analyze_grammar_and_words
    by_cases h : pyStrip text = ""
    · simp only [if_pos h]
    · simp only [if_neg h]
  · unfold correct_text
    by_cases h : pyStrip text = ""
    · simp only [if_pos h]
    · simp only [if_neg h]
      cases api with
      | none => simp
      | some resp =>
        cases resp with
        | mk ms =>
          cases ms with
          | none => simp
          | some l => rfl

/-- C3 counterexample: the pipeline of `text_analysis.py` does not follow the
spec-claimed stage order.  Under the claimed order (first-character
capitalization before the grammar patterns) the input `"i are happy"` would
yield a record whose original span is `"I are"`; the code runs the grammar
patterns on the uncapitalized text and records `"i are"`. -/
theorem c3_counterexample :
    (specOrderAnalyze [] "i are happy").corrections ≠
      (analyze_grammar_and_words [] "i are happy").corrections := by decide

/-- C3 amended: the actual `text_analysis.py` order is: grammar patterns
(the `I name` special case, then the dictionary in declaration order)
applied to the stripped, uncapitalized input, then external suggestions,
then contraction normalization (which lowercases the whole text), then
first-character capitalization, then terminal punctuation, then dedup and
the confidence score.  (`simple_text_analysis.py` deviates differently: it
capitalizes first, and runs terminal punctuation before contractions, with
no dedup stage.) -/
theorem c3_amended_actual_order (ext : List Correction) (text : String)
    (h : pyStrip text ≠ "") :
    analyze_grammar_and_words ext text =
      ⟨fix_sentence_end (capitalizeFirst (correct_common_contractions
          (applyExternalTA ext (applyCommonErrors taCommonErrors
            (applyINameFix (pyStrip text)).1).1).1)),
       (dedupe ((applyINameFix (pyStrip text)).2
          ++ (applyCommonErrors taCommonErrors (applyINameFix (pyStrip text)).1).2
          ++ (applyExternalTA ext (applyCommonErrors taCommonErrors
              (applyINameFix (pyStrip text)).1).1).2)).length,
       dedupe ((applyINameFix (pyStrip text)).2
          ++ (applyCommonErrors taCommonErrors (applyINameFix (pyStrip text)).1).2
          ++ (applyExternalTA ext (applyCommonErrors taCommonErrors
              (applyINameFix (pyStrip text)).1).1).2),
       pyConfidence (dedupe ((applyINameFix (pyStrip text)).2
          ++ (applyCommonErrors taCommonErrors (applyINameFix (pyStrip text)).1).2
          ++ (applyExternalTA ext (applyCommonErrors taCommonErrors
              (applyINameFix (pyStrip text)).1).1).2)).length
         (pyCountWords (pyStrip text))⟩ := by
  unfold analyze_grammar_and_words
  rw [if_neg h]

theorem c3_witness :
    analyze_grammar_and_words [] "i are happy" =
      ⟨fix_sentence_end (capitalizeFirst (correct_common_contractions
          (applyExternalTA [] (applyCommonErrors taCommonErrors
            (applyINameFix (pyStrip "i are happy")).1).1).1)),
       (dedupe ((applyINameFix (pyStrip "i are happy")).2
          ++ (applyCommonErrors taCommonErrors (applyINameFix (pyStrip "i are happy")).1).2
          ++ (applyExternalTA [] (applyCommonErrors taCommonErrors
              (applyINameFix (pyStrip "i are happy")).1).1).2)).length,
       dedupe ((applyINameFix (pyStrip "i are happy")).2
          ++ (applyCommonErrors taCommonErrors (applyINameFix (pyStrip "i are happy")).1).2
          ++ (applyExternalTA [] (applyCommonErrors taCommonErrors
              (applyINameFix (pyStrip "i are happy")).1).1).2),
       pyConfidence (dedupe ((applyINameFix (pyStrip "i are happy")).2
          ++ (applyCommonErrors taCommonErrors (applyINameFix (pyStrip "i are happy")).1).2
          ++ (applyExternalTA [] (applyCommonErrors taCommonErrors
              (applyINameFix (pyStrip "i are happy")).1).1).2)).length
         (pyCountWords (pyStrip "i are happy"))⟩ :=
  c3_amended_actual_order [] "i are happy" (by decide)

/-- C7: `check_with_languagetool` carries an explicit `timeout=10` on its
network call and maps every error outcome — non-200 status, unparseable
body, raised exception (unreachable service or timeout) — to the
unavailable result `none` instead of propagating; and with the adapter
unavailable `correct_text` still succeeds and returns exactly the rule-based
correction records. -/
theorem c7_adapter_degrades_to_rules_only :
    (∀ (status : Nat) (body : Option ApiResponse), status ≠ 200 →
        check_with_languagetool (.ok status body) = none)
    ∧ check_with_languagetool (.ok 200 none) = none
    ∧ check_with_languagetool .exn = none
    ∧ languagetoolTimeoutSeconds = 10
    ∧ (∀ text : String, pyStrip text ≠ "" →
        correct_text none text =
          (fix_contractions (fix_sentence_end
             (apply_rule_corrections simpleCommonErrors
               (capitalizeFirst (pyStrip text))).1),
           (apply_rule_corrections simpleCommonErrors
             (capitalizeFirst (pyStrip text))).2,
           (apply_rule_corrections simpleCommonErrors
             (capitalizeFirst (pyStrip text))).2.length,
           generate_analysis_summary
             (fix_contractions (fix_sentence_end
               (apply_rule_corrections simpleCommonErrors
                 (capitalizeFirst (pyStrip text))).1))
             (apply_rule_corrections simpleCommonErrors
               (capitalizeFirst (pyStrip text))).2.length))
    ∧ (∀ text : String, pyStrip text ≠ "" →
        (analyze_grammar_and_words [] text).corrections =
          dedupe ((applyINameFix (pyStrip text)).2
            ++ (applyCommonErrors taCommonErrors (applyINameFix (pyStrip text)).1).2)
        ∧ (analyze_grammar_and_words [] text).corrected_sentence =
          fix_sentence_end (capitalizeFirst (correct_common_contractions
            (applyCommonErrors taCommonErrors (applyINameFix (pyStrip text)).1).1))) := by
  refine ⟨?_, rfl, rfl, rfl, ?_, ?_⟩
  · intro status body hst
    simp only [check_with_languagetool, if_neg hst]
  · intro text h
    unfold correct_text
    rw [if_neg h]
  · intro text h
    unfold analyze_grammar_and_words
    simp only [if_neg h, applyExternalTA, List.append_nil]
    refine ⟨?_, ?_⟩ <;> first | rfl | trivial

theorem c7_witness :
    check_with_languagetool (.ok 503 none) = none
    ∧ correct_text none "i are happy" =
      (fix_contractions (fix_sentence_end
         (apply_rule_corrections simpleCommonErrors
           (capitalizeFirst (pyStrip "i are happy"))).1),
       (apply_rule_corrections simpleCommonErrors
         (capitalizeFirst (pyStrip "i are happy"))).2,
       (apply_rule_corrections simpleCommonErrors
         (capitalizeFirst (pyStrip "i are happy"))).2.length,
       generate_analysis_summary
         (fix_contractions (fix_sentence_end
           (apply_rule_corrections simpleCommonErrors
             (capitalizeFirst (pyStrip "i are happy"))).1))
         (apply_rule_corrections simpleCommonErrors
           (capitalizeFirst (pyStrip "i are happy"))).2.length)
    ∧ (analyze_grammar_and_words [] "i are happy").corrections =
        dedupe ((applyINameFix (pyStrip "i are happy")).2
          ++ (applyCommonErrors taCommonErrors
              (applyINameFix (pyStrip "i are happy")).1).2) :=
  ⟨c7_adapter_degrades_to_rules_only.1 503 none (by decide),
   c7_adapter_degrades_to_rules_only.2.2.2.2.1 "i are happy" (by decide),
   (c7_adapter_degrades_to_rules_only.2.2.2.2.2 "i are happy" (by decide)).1⟩

/-- C8: the pattern `"in japan" → "in Japan"` is flipped back and forth when
`text_analysis.py` is re-run on its own output, breaking the no-flip clause
of the idempotence property: on `"i live in japan"` the grammar stage of the
first run applies the pattern (the text gains `"in Japan"`), the contraction
stage's global lowercasing reverts it before output, and the second run — on
that very output — applies and reverts the same pattern again.  Neither run
reports a correction (the record guard compares the spans lowercased), so
the capitalization fix the pattern table plainly intends can never reach the
output. -/
theorem c8_pattern_flipped_at_failing_input :
    (applyCommonErrors taCommonErrors
        (applyINameFix (pyStrip "i live in japan")).1).1 = "i live in Japan"
    ∧ (analyze_grammar_and_words [] "i live in japan").corrected_sentence =
        "I live in japan."
    ∧ (analyze_grammar_and_words [] "i live in japan").corrections = []
    ∧ (applyCommonErrors taCommonErrors
        (applyINameFix (pyStrip "I live in japan.")).1).1 = "I live in Japan."
    ∧ (analyze_grammar_and_words [] "I live in japan.").corrected_sentence =
        "I live in japan."
    ∧ (analyze_grammar_and_words [] "I live in japan.").corrections = [] := by
  exact ⟨by decide, by decide, by decide, by decide, by decide, by decide⟩
